import Mathlib

/-!
Shallow embedding of the usekuro mock-runtime core: the definition model and
its validation (`internal/schema`), the template context and safe function
library (`internal/template`), the TCP/WS message-matching pipeline
(`internal/runtime/tcp.go`, `ws.go`), the handler start/stop and accept-loop
control flow (`tcp.go`, `ws.go`, `http.go`, `sftp.go`), and the SFTP backing
file tree.  Go maps are modelled as association lists with overwrite-on-insert,
Go `nil` maps/pointers as `Option`, and fallible calls as `Option`/`Except`.
-/

namespace Kuro

/-- Go `any` values as they occur in template contexts and the safe function
library: strings, integers, booleans, string slices (`[]string`) and `nil`.
Nested `map[string]any` values do not occur in the code paths the claims
touch, so they are not represented. -/
inductive GoAny where
  | str (s : String)
  | int (n : Int)
  | bool (b : Bool)
  | strList (l : List String)
  | nil
deriving Repr, DecidableEq

/-- A Go `map[string]any`, modelled as an association list in which keys are
unique (later writes overwrite, see `goMapInsert`). -/
abbrev GoMap := List (String × GoAny)

/-- Does the Go type assertion `v.(string)` succeed? -/
def GoAny.isString : GoAny → Bool
  | .str _ => true
  | _ => false

/-- Does the Go type assertion `v.([]string)` succeed? -/
def GoAny.isStrList : GoAny → Bool
  | .strList _ => true
  | _ => false

/-- Go map read `m[k]` on the association-list model. -/
def assocLookup {α β : Type} [DecidableEq α] (m : List (α × β)) (k : α) : Option β :=
  match m with
  | [] => none
  | (k2, v) :: t => if k2 = k then some v else assocLookup t k

/-- `Meta` from `internal/schema` (display name and description). -/
structure Meta where
  name : String
  description : String
deriving Repr, DecidableEq

/-- `ResponseDefinition` from `internal/schema`. -/
structure ResponseDefinition where
  status : Int
  headers : List (String × String)
  body : String
deriving Repr, DecidableEq

/-- `Route` from `internal/schema`. -/
structure Route where
  path : String
  method : String
  response : ResponseDefinition
deriving Repr, DecidableEq

/-- `OnMessageRule` from `internal/schema`: the `if` guard template and the
`respond` template. -/
structure OnMessageRule where
  If : String
  Respond : String
deriving Repr, DecidableEq

/-- `OnMessage` from `internal/schema`: the `match` regex text, the ordered
condition list and the `else` fallback template. -/
structure OnMessage where
  Match : String
  Conditions : List OnMessageRule
  Else : String
deriving Repr, DecidableEq

/-- `FileEntry` from `internal/schema`. -/
structure FileEntry where
  path : String
  content : String
deriving Repr, DecidableEq

/-- `SFTPAuth` from `internal/schema`. -/
structure SFTPAuth where
  username : String
  password : String
  publicKeyPath : String
deriving Repr, DecidableEq

/-- `Session` from `internal/schema` (advisory timeout). -/
structure SessionCfg where
  timeout : String
deriving Repr, DecidableEq

/-- `Context` from `internal/schema`: the definition's global variables
(Go field `Variables`; renamed because `variables` is a Lean keyword). -/
structure ContextCfg where
  vars : List (String × GoAny)
deriving Repr, DecidableEq

/-- `MockDefinition` from `internal/schema`.  Pointer-typed fields
(`OnMessage`, `SFTPAuth`, `Session`, `Context`) become `Option`. -/
structure MockDefinition where
  protocol : String
  port : Int
  meta : Meta
  routes : List Route
  onMessage : Option OnMessage
  files : List FileEntry
  sftpAuth : Option SFTPAuth
  session : Option SessionCfg
  context : Option ContextCfg
  functions : List (String × String)
  imports : List String
deriving Repr, DecidableEq

/-- `Validate` from `internal/schema` (part_002): the protocol switch; a
`some` result is the error message, `none` is success. -/
def Validate (def_ : MockDefinition) : Option String :=
  if def_.protocol = "http" then
    if def_.routes.length = 0 then
      some "'routes' must be defined for HTTP protocol"
    else none
  else if def_.protocol = "tcp" ∨ def_.protocol = "ws" then
    match def_.onMessage with
    | none => some "'onMessage' must be defined for TCP/WS protocol"
    | some _ => none
  else if def_.protocol = "sftp" then
    if def_.files.length = 0 then
      some "'files' must be defined for SFTP protocol"
    else
      match def_.sftpAuth with
      | none => some "'sftpAuth' must be defined for SFTP protocol"
      | some a =>
        if a.username = "" ∨ a.password = "" then
          some "'sftpAuth' must include username and password"
        else none
  else
    some ("unsupported protocol: " ++ def_.protocol)

/-! ## Template safe function library (`internal/template/functions.go`) -/

/-- Character-level model of Go `strings.Contains`: is `nee` a contiguous
sub-sequence of `hay`?  (Byte-level and character-level containment agree on
valid UTF-8 for the ASCII data in play.) -/
def containsSub (hay nee : List Char) : Bool :=
  match hay with
  | [] => nee.isEmpty
  | _ :: t => nee.isPrefixOf hay || containsSub t nee

/-- Go `strings.Contains` on strings. -/
def goContains (s substr : String) : Bool :=
  containsSub s.toList substr.toList

/-- Go `fmt.Sprint` on the represented `any` values (best-effort string
conversion used by `safeUpper`). -/
def fmtSprint : GoAny → String
  | .str s => s
  | .int n => toString n
  | .bool b => if b then "true" else "false"
  | .strList l => "[" ++ String.intercalate " " l ++ "]"
  | .nil => "<nil>"

/-- Go `strings.ToUpper` as a character-wise map (ASCII upper-casing). -/
def goToUpper (s : String) : String :=
  (s.toList.map Char.toUpper).asString

/-- `safeContains`: both arguments must be strings, otherwise `false`. -/
def safeContains (s substr : GoAny) : Bool :=
  match s, substr with
  | .str a, .str b => goContains a b
  | _, _ => false

/-- `safeRegexMatch`: both arguments must be strings, otherwise `false`;
`regexp.MatchString`'s result is taken as the abstract `matchString`
parameter (its error is discarded by the code, yielding `false`). -/
def safeRegexMatch (matchString : String → String → Bool) (pat val : GoAny) : Bool :=
  match pat, val with
  | .str p, .str v => matchString p v
  | _, _ => false

/-- `safeUpper`: coerces any value via `fmt.Sprint` and upper-cases it. -/
def safeUpper (val : GoAny) : String :=
  goToUpper (fmtSprint val)

/-- `safeLower`: strings only; otherwise the error string. -/
def safeLower : GoAny → String
  | .str s => s.toLower
  | _ => "error: not a string"

/-- Go `unicode.isSeparator` as used by `strings.Title` word boundaries,
restricted to the ASCII range: letters, digits and underscore are
non-separators. -/
def goIsSeparator (c : Char) : Bool :=
  !(c.isAlpha || c.isDigit || c = '_')

/-- Character recursion of Go `strings.Title`: upper-case a letter that
follows a separator (or starts the string). -/
def titleChars : Bool → List Char → List Char
  | _, [] => []
  | prevSep, c :: t => (if prevSep then c.toUpper else c) :: titleChars (goIsSeparator c) t

/-- Go `strings.Title`. -/
def goTitle (s : String) : String :=
  (titleChars true s.toList).asString

/-- `safeTitle`: strings only; otherwise the error string. -/
def safeTitle : GoAny → String
  | .str s => goTitle s
  | _ => "error: not a string"

/-- `safeTrim`: strings only; otherwise the error string. -/
def safeTrim : GoAny → String
  | .str s => s.trim
  | _ => "error: not a string"

/-- `safeSplit`: both arguments must be strings, otherwise the empty slice. -/
def safeSplit (str sep : GoAny) : List String :=
  match str, sep with
  | .str s, .str sepStr => s.splitOn sepStr
  | _, _ => []

/-- `safeJoin`: the first argument must be a `[]string` (the separator is
typed `string` in Go); otherwise the error string. -/
def safeJoin (arr : GoAny) (sep : String) : String :=
  match arr with
  | .strList l => String.intercalate sep l
  | _ => "error: expected []string"

/-- `safeReplace`: all three arguments must be strings; otherwise the error
string. -/
def safeReplace (s old new : GoAny) : String :=
  match s, old, new with
  | .str a, .str b, .str c => a.replace b c
  | _, _, _ => "error: invalid args"

/-- `safeLen`: length of arrays/slices/maps/strings (bytes, for strings),
`0` for everything else (including invalid/nil values). -/
def safeLen : GoAny → Int
  | .str s => (s.utf8ByteSize : Int)
  | .strList l => (l.length : Int)
  | .int _ => 0
  | .bool _ => 0
  | .nil => 0

/-- `safeDefault`: the default replaces `nil`, the empty string and
reflective zero values (`0`, `false`); everything else passes through. -/
def safeDefault (value defaultValue : GoAny) : GoAny :=
  match value with
  | .nil => defaultValue
  | .str s => if s = "" then defaultValue else value
  | .int n => if n = 0 then defaultValue else value
  | .bool b => if b then value else defaultValue
  | .strList _ => value

/-! ## Template contexts (`internal/template/context.go`, `http.go`) -/

/-- `MergeContext` from `internal/template/context.go`: `nil` maps default to
empty maps, and the result always carries the three keys in this order. -/
def MergeContext (input session global : Option GoMap) : List (String × GoMap) :=
  [("input", input.getD []), ("session", session.getD []), ("context", global.getD [])]

/-- A value of the HTTP registration-time `fullContext` map: either one of the
definition's variables or the nested `context` sub-map. -/
inductive CtxVal where
  | plain (v : GoAny)
  | submap (m : GoMap)
deriving Repr, DecidableEq

/-- Go map write `m[k] = v` on the association-list model: overwrite the
existing entry or append a new one. -/
def goMapInsert (m : List (String × CtxVal)) (k : String) (v : CtxVal) : List (String × CtxVal) :=
  match m with
  | [] => [(k, v)]
  | (k2, v2) :: t => if k2 = k then (k, v) :: t else (k2, v2) :: goMapInsert t k v

/-- The `fullContext` map built by `HTTPHandler.Start` (http.go lines 92-106)
for the one-time route-path resolution: every definition variable at top
level, plus a `"context"` entry holding a copy of the variables — and nothing
else (no `input`/`session` keys). -/
def httpInitialContext (vars : GoMap) : List (String × CtxVal) :=
  goMapInsert (List.foldl (fun acc kv => goMapInsert acc kv.1 (.plain kv.2)) [] vars)
    "context" (.submap vars)

/-! ## Message matching pipeline (`tcp.go`, `ws.go`, `extractVars`) -/

/-- The behaviour of one successfully compiled `match` regex: from the raw
input, the named-capture-group bindings produced by `FindStringSubmatch` and
`SubexpNames` (empty list when the regex does not match). -/
abbrev ExtractFn := String → List (String × String)

/-- `extractVars` from the runtime package: an empty pattern binds the whole
input under `msg`; otherwise the pattern is compiled with
`regexp.MustCompile`, which panics (`.error`) when the pattern is invalid
(`compiled = none`). -/
def extractVars (compiled : Option ExtractFn) (input pattern : String) :
    Except Unit (List (String × String)) :=
  if pattern = "" then .ok [("msg", input)]
  else
    match compiled with
    | none => .error ()
    | some f => .ok (f input)

/-- The condition loop shared by `TCPHandler.handleConnection` (tcp.go
102-134) and the WS read loop (ws.go 62-84), instrumented with the list of
raw template strings passed to `Render`: scan conditions in order; the first
whose `if` renders to `"true"` selects its `respond`; otherwise the non-empty
`else` is rendered; otherwise no response. -/
def dispatchTrace (render : String → String) :
    List OnMessageRule → String → Option String × List String
  | [], els => if els = "" then (none, []) else (some (render els), [els])
  | c :: rest, els =>
    if render c.If = "true" then (some (render c.Respond), [c.If, c.Respond])
    else
      let p := dispatchTrace render rest els
      (p.1, c.If :: p.2)

/-- The response produced by the shared condition loop (trace dropped). -/
def dispatch (render : String → String) (conds : List OnMessageRule) (els : String) :
    Option String :=
  (dispatchTrace render conds els).1

/-- One newline-append step of tcp.go (`if len(resp) > 0 && resp[len-1] != '\n'`;
the byte `'\n'` can only be the last byte of the UTF-8 encoding when it is the
last character, so the character-level `back` test agrees). -/
def appendNL (s : String) : String :=
  if s.length > 0 ∧ s.back ≠ '\n' then s ++ "\n" else s

/-- tcp.go applies the newline append twice before `conn.Write`. -/
def tcpFrame (s : String) : String :=
  appendNL (appendNL s)

/-- The bytes a TCP connection writes back for one message (after variable
extraction): the dispatched response, newline-framed; `none` = nothing
written. -/
def tcpRespond (render : String → String) (conds : List OnMessageRule) (els : String) :
    Option String :=
  (dispatch render conds els).map tcpFrame

/-- The text message a WS connection writes back for one received message
(after variable extraction): the dispatched response unframed. -/
def wsRespond (render : String → String) (conds : List OnMessageRule) (els : String) :
    Option String :=
  dispatch render conds els

/-- Outcome of handling one TCP message in `handleConnection`'s goroutine. -/
inductive MsgOutcome where
  | panicked
  | wrote (s : String)
  | silent
deriving Repr, DecidableEq

/-- One TCP read/respond cycle from `handleConnection` (tcp.go 88-134): the
`render` family is indexed by the extracted variables.  `handleConnection`
installs no `recover`, so a panic raised by `regexp.MustCompile` inside
`extractVars` escapes the connection goroutine (`.panicked`). -/
def tcpMessageOutcome (compiled : Option ExtractFn)
    (render : List (String × String) → String → String)
    (om : OnMessage) (input : String) : MsgOutcome :=
  match extractVars compiled input om.Match with
  | .error _ => .panicked
  | .ok vars =>
    match tcpRespond (render vars) om.Conditions om.Else with
    | some s => .wrote s
    | none => .silent

/-- Specification-side dispatch, written from the spec's words: the response
is the `respond` of the first condition whose guard renders `"true"`, else
the `else` template when non-empty, else nothing. -/
def dispatchSpec (render : String → String) (conds : List OnMessageRule) (els : String) :
    Option String :=
  match conds.find? (fun c => render c.If == "true") with
  | some c => some (render c.Respond)
  | none => if els = "" then none else some (render els)

/-- Specification-side render trace: the guards up to and including the first
true one are evaluated (later conditions are not), then either that
condition's `respond` or the non-empty `else`. -/
def specTrace (render : String → String) (conds : List OnMessageRule) (els : String) :
    List String :=
  let keep := fun c : OnMessageRule => !(render c.If == "true")
  ((conds.takeWhile keep).map OnMessageRule.If) ++
    (match (conds.dropWhile keep).head? with
     | some c => [c.If, c.Respond]
     | none => if els = "" then [] else [els])

/-! ## Handler start models (`tcp.go`, `http.go`, `ws.go`, `sftp.go`) -/

/-- The value a handler's `Start` returns to its caller. -/
inductive StartResult where
  | ok
  | err (e : String)
deriving Repr, DecidableEq

/-- `TCPHandler.Start` (tcp.go 25-53): a bind failure is returned; otherwise
the accept loop is spawned and `nil` is returned. -/
def tcpStart (bindErr : Option String) : StartResult :=
  match bindErr with
  | some e => .err e
  | none => .ok

/-- `HTTPHandler.Start` (http.go 108-249): a template-runtime construction
failure or an immediate `ListenAndServe` failure (observed through the
100 ms grace window) is returned; otherwise `nil`. -/
def httpStart (tplErr immediateBindErr : Option String) : StartResult :=
  match tplErr with
  | some e => .err ("failed to create template runtime: " ++ e)
  | none =>
    match immediateBindErr with
    | some e => .err ("failed to start HTTP server: " ++ e)
    | none => .ok

/-- `SFTPHandler.Start` (sftp.go 30-86): host-key read/parse, root-dir
creation and bind failures are each returned in sequence; otherwise the
accept loop is spawned and `nil` is returned. -/
def sftpStart (hostKeyReadErr hostKeyParseErr mkdirErr bindErr : Option String) : StartResult :=
  match hostKeyReadErr with
  | some e => .err ("failed to load host key: " ++ e)
  | none =>
    match hostKeyParseErr with
    | some e => .err ("failed to parse host key: " ++ e)
    | none =>
      match mkdirErr with
      | some e => .err ("failed to create root dir: " ++ e)
      | none =>
        match bindErr with
        | some e => .err ("failed to listen: " ++ e)
        | none => .ok

/-- Fate of the goroutine `WSHandler.Start` spawns around
`http.ListenAndServe` (ws.go 88-93): a bind failure hits `logger.Fatal`,
which terminates the whole process. -/
inductive WsServeFate where
  | running
  | fatalExited (e : String)
deriving Repr, DecidableEq

/-- The serving goroutine of `WSHandler.Start`. -/
def wsServe (bindErr : Option String) : WsServeFate :=
  match bindErr with
  | some e => .fatalExited e
  | none => .running

/-- `WSHandler.Start` (ws.go 28-95): it registers the upgrade handler, spawns
the serving goroutine and returns `nil` unconditionally; the eventual bind
outcome is only visible in the goroutine's fate. -/
def wsStart (bindErr : Option String) : StartResult × WsServeFate :=
  (.ok, wsServe bindErr)

/-! ## Accept loops (`tcp.go` 35-50, `sftp.go` 89-99) -/

/-- One `Accept` result: a connection, or an error that is (`closed = true`)
or is not the listener-closed error. -/
inductive AcceptEvent where
  | conn
  | err (closed : Bool) (msg : String)
deriving Repr, DecidableEq

/-- How an accept loop left the given event sequence. -/
inductive LoopEnd where
  | pending
  | exited
deriving Repr, DecidableEq

/-- The TCP accept loop: a listener-closed error returns cleanly, any other
accept error is logged and the loop continues; connections spawn handler
goroutines (counted). -/
def tcpAcceptLoop : List AcceptEvent → Nat × LoopEnd
  | [] => (0, .pending)
  | .conn :: rest =>
    let p := tcpAcceptLoop rest
    (p.1 + 1, p.2)
  | .err true _ :: _ => (0, .exited)
  | .err false _ :: rest => tcpAcceptLoop rest

/-- The SFTP accept loop (`acceptConnections`): any accept error — closed or
not — is logged and the loop returns. -/
def sftpAcceptLoop : List AcceptEvent → Nat × LoopEnd
  | [] => (0, .pending)
  | .conn :: rest =>
    let p := sftpAcceptLoop rest
    (p.1 + 1, p.2)
  | .err _ _ :: _ => (0, .exited)

/-! ## SFTP backing file tree (`sftp.go` 30-86, 162-168) -/

/-- One step of Go `path/filepath.Clean` on slash-separated segments of a
relative path: empty and `.` segments vanish, `..` pops the previous segment
(accumulating at the front when there is nothing to pop). -/
def cleanSegsStep (stack : List String) (seg : String) : List String :=
  if seg = "" ∨ seg = "." then stack
  else if seg = ".." then
    match stack.getLast? with
    | some s => if s = ".." then stack ++ [".."] else stack.dropLast
    | none => [".."]
  else stack ++ [seg]

/-- Go `filepath.Clean` of a relative slash path, in canonical segment-list
form. -/
def cleanSegs (segs : List String) : List String :=
  List.foldl cleanSegsStep [] segs

/-- Character recursion splitting on `/`. -/
def splitSlashChars : List Char → List (List Char)
  | [] => [[]]
  | x :: t =>
    match splitSlashChars t with
    | [] => [[x]]
    | h :: r => if x = '/' then [] :: h :: r else (x :: h) :: r

/-- Go `strings.Split(s, "/")`: the slash-separated segments `filepath.Clean`
works over. -/
def splitSlash (s : String) : List String :=
  (splitSlashChars s.toList).map List.asString

/-- Go `filepath.Join(root, p)` = `Clean(root + "/" + p)` for a relative
`root`, in canonical segment-list form. -/
def filepathJoin (root p : String) : List String :=
  cleanSegs (splitSlash root ++ splitSlash p)

/-- The slash-segments of `p` that survive cleaning when `p` has no `..`
segment. -/
def relSegs (p : String) : List String :=
  (splitSlash p).filter (fun s => !(s = "" || s = "."))

/-- The on-disk tree backing the virtual filesystem: canonical path → file
content. -/
abbrev FileTree := List (List String × String)

/-- `os.WriteFile`: create or truncate-overwrite. -/
def fsWrite (fs : FileTree) (k : List String) (v : String) : FileTree :=
  match fs with
  | [] => [(k, v)]
  | (k2, v2) :: t => if k2 = k then (k, v) :: t else (k2, v2) :: fsWrite t k v

/-- The fixed relative backing directory `SFTPHandler.Start` assigns
(`h.root = "sftp_root"`), independent of the definition. -/
def sftpRoot (_def : MockDefinition) : String :=
  "sftp_root"

/-- File materialization in `SFTPHandler.Start` (sftp.go 65-73): each
`FileEntry` is written at `filepath.Join("sftp_root", f.Path)` over whatever
tree already exists on disk. -/
def sftpMaterialize (def_ : MockDefinition) (fs : FileTree) : FileTree :=
  List.foldl (fun acc f => fsWrite acc (filepathJoin (sftpRoot def_) f.path) f.content)
    fs def_.files

/-- The handler state `Stop` acts on: the listener flag and the backing
tree. -/
structure SftpState where
  listening : Bool
  fs : FileTree
deriving Repr, DecidableEq

/-- `SFTPHandler.Stop` (sftp.go 162-168): closes the listener and touches
nothing on disk. -/
def sftpStop (st : SftpState) : SftpState :=
  { st with listening := false }

/-! ## Concrete scenario 2 (tcp test, spec §8) -/

/-- The scenario's guard template
`{{ if contains .input.cmd "ping" }}true{{ else }}false{{ end }}`. -/
def scenario2If : String :=
  "\x7b\x7b if contains .input.cmd \"ping\" \x7d\x7dtrue\x7b\x7b else \x7d\x7dfalse\x7b\x7b end \x7d\x7d"

/-- The scenario's response template `{{ template "toUpper" .input.cmd }}`. -/
def scenario2Respond : String :=
  "\x7b\x7b template \"toUpper\" .input.cmd \x7d\x7d"

/-- The scenario's `onMessage` rule set (match `(?P<cmd>.+)`, one condition,
else `NO MATCH`), as in `TestTCPWithExternalFunction`. -/
def scenario2OnMessage : OnMessage :=
  { Match := "(?P<cmd>.+)"
    Conditions := [{ If := scenario2If, Respond := scenario2Respond }]
    Else := "NO MATCH" }

/-- Modelled from the spec: the imported extension fragment
(`samples/toUpper_test.kurof`, not among the sources) defines a named
template `toUpper` that upper-cases its argument — i.e. the engine's `upper`
function applied to the string argument. -/
def toUpperFragment (arg : String) : String :=
  safeUpper (.str arg)

/-- Go `regexp` `(?P<cmd>.+)` under `FindStringSubmatch`/`SubexpNames` for
newline-free input: `.+` greedily captures the whole input; the empty input
does not match, leaving no bindings. -/
def cmdPatternExtract : ExtractFn :=
  fun input => if input = "" then [] else [("cmd", input)]

/-- Go `text/template` evaluation of the three scenario templates against the
context `{input: {cmd: …}}`: the guard renders its `true`/`false` branches by
the `contains` call, the respond invokes the `toUpper` sub-template on
`.input.cmd`, and the else fallback is literal text. -/
def scenario2Render (vars : List (String × String)) (raw : String) : String :=
  let cmd := (vars.lookup "cmd").getD ""
  if raw = scenario2If then
    (if safeContains (.str cmd) (.str "ping") then "true" else "false")
  else if raw = scenario2Respond then toUpperFragment cmd
  else if raw = "NO MATCH" then "NO MATCH"
  else ""

/-- End-to-end scenario 2: the outcome of one TCP message against the
scenario definition. -/
def scenario2Outcome (msg : String) : MsgOutcome :=
  tcpMessageOutcome (some cmdPatternExtract) scenario2Render scenario2OnMessage msg

/-- An `onMessage` whose `match` pattern `"("` is not a valid regular
expression (Go: `error parsing regexp: missing closing )`), so
`regexp.MustCompile` has no compiled form. -/
def badPatternOnMessage : OnMessage :=
  { Match := "(", Conditions := [], Else := "" }

/-- The SFTP definition of spec scenario 4: one file `/welcome.txt` with
content `hi` and complete credentials. -/
def sftpScenarioDef : MockDefinition :=
  { protocol := "sftp"
    port := 2022
    meta := { name := "sftp mock", description := "" }
    routes := []
    onMessage := none
    files := [{ path := "/welcome.txt", content := "hi" }]
    sftpAuth := some { username := "u", password := "p", publicKeyPath := "" }
    session := none
    context := none
    functions := []
    imports := [] }

end Kuro

namespace Kuro

/-- **C1.** `Validate(def)` succeeds exactly when the protocol-specific
required fields are present: http needs at least one route; tcp/ws need a
non-nil `onMessage`; sftp needs a non-empty file list and an `sftpAuth` with
non-empty username and password; every protocol outside {http, tcp, ws, sftp}
is rejected. -/
theorem validate_ok_iff (d : MockDefinition) :
    Validate d = none ↔
      ((d.protocol = "http" ∧ d.routes ≠ []) ∨
       ((d.protocol = "tcp" ∨ d.protocol = "ws") ∧ d.onMessage ≠ none) ∨
       (d.protocol = "sftp" ∧ d.files ≠ [] ∧
         ∃ a, d.sftpAuth = some a ∧ a.username ≠ "" ∧ a.password ≠ "")) := by
  by_cases h1 : d.protocol = "http"
  · simp [Validate, h1, List.length_eq_zero]
  · by_cases ht : d.protocol = "tcp" ∨ d.protocol = "ws"
    · have h4 : ¬ d.protocol = "sftp" := by
        rcases ht with h | h <;> simp [h]
      cases hm : d.onMessage <;>
        rcases ht with h | h <;>
          simp [Validate, h1, h, h4, hm]
    · by_cases h4 : d.protocol = "sftp"
      · push_neg at ht
        cases ha : d.sftpAuth with
        | none =>
          simp [Validate, h1, ht.1, ht.2, h4, ha]
          try (split_ifs <;> simp_all [List.length_eq_zero])
        | some a =>
          simp [Validate, h1, ht.1, ht.2, h4, ha, List.length_eq_zero]
          try (split_ifs <;> simp_all [List.length_eq_zero])
          try tauto
      · push_neg at ht
        simp [Validate, h1, ht.1, ht.2, h4]

/-- **C2 (code bug).** With the invalid `match` pattern `"("`, handling one
TCP message panics out of the connection goroutine: `extractVars` compiles
the pattern with `regexp.MustCompile` (no compiled form exists, hence
`none`), and `handleConnection` installs no `recover`, so no response is
produced and the panic escapes — contradicting the spec's edge policy that a
compile failure is caught per message. -/
theorem tcp_invalid_match_panics :
    tcpMessageOutcome none (fun _ _ => "") badPatternOnMessage "hi" = MsgOutcome.panicked := rfl

/-- **C4 counterexample.** On a bind failure, `WSHandler.Start` still returns
`nil` (`.ok`) to its caller, and the failure instead terminates the process
through `logger.Fatal` in the serving goroutine — so the claim that every
handler's `Start` returns a non-nil error on bind failure and never
terminates the process is false. -/
theorem ws_start_swallows_bind_error_cex :
    (wsStart (some "listen tcp :9102: bind: address already in use")).1 = StartResult.ok ∧
    (wsStart (some "listen tcp :9102: bind: address already in use")).2 =
      WsServeFate.fatalExited "listen tcp :9102: bind: address already in use" :=
  ⟨rfl, rfl⟩

/-- **C4 (amended).** HTTP, TCP and SFTP `Start` surface bind (and SFTP
host-key) failures as returned errors; the WebSocket `Start` instead always
returns `ok` and a bind failure terminates the process via a fatal log in
its serving goroutine. -/
theorem start_bind_error_surfaced (e : String) (b : Option String) :
    tcpStart (some e) = StartResult.err e ∧
    httpStart none (some e) = StartResult.err ("failed to start HTTP server: " ++ e) ∧
    sftpStart none none none (some e) = StartResult.err ("failed to listen: " ++ e) ∧
    sftpStart (some e) none none none = StartResult.err ("failed to load host key: " ++ e) ∧
    (wsStart b).1 = StartResult.ok ∧
    wsServe (some e) = WsServeFate.fatalExited e :=
  ⟨rfl, rfl, rfl, rfl, rfl, rfl⟩

/-- **C5 counterexample.** The SFTP accept loop does not continue past a
non-closed accept error: after such an error it never accepts the following
connection, unlike the claimed log-and-continue behaviour. -/
theorem sftp_accept_loop_stops_cex :
    sftpAcceptLoop [AcceptEvent.err false "too many open files", AcceptEvent.conn] ≠
      sftpAcceptLoop [AcceptEvent.conn] := by decide

/-- **C5 (amended).** The TCP accept loop ends cleanly on the listener-closed
error and continues past any other accept error; the SFTP accept loop
terminates on any accept error, closed or not. -/
theorem accept_loop_error_policy (m : String) (rest : List AcceptEvent) (closed : Bool) :
    tcpAcceptLoop (AcceptEvent.err false m :: rest) = tcpAcceptLoop rest ∧
    tcpAcceptLoop (AcceptEvent.err true m :: rest) = (0, LoopEnd.exited) ∧
    sftpAcceptLoop (AcceptEvent.err closed m :: rest) = (0, LoopEnd.exited) :=
  ⟨rfl, rfl, rfl⟩

/-- **C6 counterexample.** An HTTP definition with one route and port `0`
(outside 1–65535) passes `Validate`, so validation does not reject
out-of-range ports. -/
theorem validate_port_unchecked_cex :
    Validate
      { protocol := "http", port := 0, meta := { name := "", description := "" },
        routes := [{ path := "/", method := "",
                     response := { status := 200, headers := [], body := "" } }],
        onMessage := none, files := [], sftpAuth := none, session := none,
        context := none, functions := [], imports := [] } = none := rfl

/-- **C6 (amended).** `Validate` never inspects the port: its outcome is
identical for any two port values on the same definition. -/
theorem validate_independent_of_port (d : MockDefinition) (p q : Int) :
    Validate { d with port := p } = Validate { d with port := q } := rfl

/-- **C3.** For every rule set and received message, the shared TCP/WS
condition loop renders the guards in declaration order, stops at the first
one rendering exactly `"true"` (later guards are not rendered, as the render
trace shows), and produces at most one response: that condition's `respond`,
else the non-empty `else`, else nothing; the WS handler writes exactly this
response and the TCP handler writes it newline-framed. -/
theorem dispatch_first_true_wins (render : String → String) (conds : List OnMessageRule)
    (els : String) :
    dispatchTrace render conds els = (dispatchSpec render conds els, specTrace render conds els) ∧
    wsRespond render conds els = dispatchSpec render conds els ∧
    tcpRespond render conds els = (dispatchSpec render conds els).map tcpFrame := by
  have key : ∀ cs : List OnMessageRule,
      dispatchTrace render cs els = (dispatchSpec render cs els, specTrace render cs els) := by
    intro cs
    induction cs with
    | nil =>
      by_cases he : els = "" <;>
        simp [dispatchTrace, dispatchSpec, specTrace, he]
    | cons c rest ih =>
      by_cases h : render c.If = "true"
      · simp [dispatchTrace, dispatchSpec, specTrace, h]
      · have hb : (render c.If == "true") = false := by
          simp [h]
        simp [dispatchTrace, dispatchSpec, specTrace, hb, ih]
        exact fun hc => absurd hc h
  refine ⟨key conds, ?_, ?_⟩ <;>
    simp [wsRespond, tcpRespond, dispatch, key conds]

/-- Reading a key other than the inserted one is unchanged by a map write. -/
theorem assocLookup_goMapInsert_ne (m : List (String × CtxVal)) (k k' : String) (v : CtxVal)
    (h : k' ≠ k) : assocLookup (goMapInsert m k v) k' = assocLookup m k' := by
  induction m with
  | nil =>
    have h2 : ¬ k = k' := fun e => h e.symm
    simp [goMapInsert, assocLookup, h2]
  | cons p t ih =>
    obtain ⟨k2, v2⟩ := p
    by_cases hk : k2 = k
    · subst hk
      have h2 : ¬ k2 = k' := fun e => h e.symm
      simp [goMapInsert, assocLookup, h2]
    · simp [goMapInsert, assocLookup, hk, ih]

/-- Folding the per-variable inserts over keys other than `x` leaves the
lookup of `x` unchanged. -/
theorem assocLookup_foldl_insert (vars : GoMap) (x : String) :
    ∀ acc : List (String × CtxVal), x ∉ vars.map Prod.fst →
      assocLookup (List.foldl (fun acc kv => goMapInsert acc kv.1 (.plain kv.2)) acc vars) x =
        assocLookup acc x := by
  induction vars with
  | nil => intro acc _; rfl
  | cons kv t ih =>
    intro acc h
    have hx : x ≠ kv.1 := by
      intro e; exact h (by simp [e])
    have ht : x ∉ t.map Prod.fst := fun m => h (by simp [m])
    simp only [List.foldl_cons]
    rw [ih _ ht, assocLookup_goMapInsert_ne _ _ _ _ hx]

/-- **C7 counterexample.** The context built by `HTTPHandler.Start` for the
one-time route-path resolution (scenario 1's variables) has no `input` key at
all, so not every template evaluation sees the three top-level keys. -/
theorem http_path_context_missing_input_cex :
    assocLookup (httpInitialContext [("nombre", GoAny.str "gatito")]) "input" = none := rfl

/-- **C7 (amended).** Every per-request/per-message render context built by
`MergeContext` carries the three keys `input`, `session`, `context`, each
defaulting to the empty mapping when its datum is `nil`; the registration-time
route-path context instead holds only the definition's variables plus a
`context` entry, with no `input`/`session` keys (unless a variable is so
named). -/
theorem context_three_keys (i s g : Option GoMap) (vars : GoMap)
    (h1 : "input" ∉ vars.map Prod.fst) (h2 : "session" ∉ vars.map Prod.fst) :
    assocLookup (MergeContext i s g) "input" = some (i.getD []) ∧
    assocLookup (MergeContext i s g) "session" = some (s.getD []) ∧
    assocLookup (MergeContext i s g) "context" = some (g.getD []) ∧
    assocLookup (httpInitialContext vars) "input" = none ∧
    assocLookup (httpInitialContext vars) "session" = none := by
  refine ⟨rfl, rfl, rfl, ?_, ?_⟩ <;>
  · unfold httpInitialContext
    rw [assocLookup_goMapInsert_ne _ _ _ _ (by decide),
      assocLookup_foldl_insert _ _ _ (by assumption)]
    rfl

/-- Witness for `context_three_keys` at scenario 1's variables and absent
input/session data. -/
theorem context_three_keys_witness :
    assocLookup (MergeContext none none (some [("nombre", GoAny.str "gatito")])) "input" =
      some ((none : Option GoMap).getD []) ∧
    assocLookup (MergeContext none none (some [("nombre", GoAny.str "gatito")])) "session" =
      some ((none : Option GoMap).getD []) ∧
    assocLookup (MergeContext none none (some [("nombre", GoAny.str "gatito")])) "context" =
      some ((some [("nombre", GoAny.str "gatito")] : Option GoMap).getD []) ∧
    assocLookup (httpInitialContext [("nombre", GoAny.str "gatito")]) "input" = none ∧
    assocLookup (httpInitialContext [("nombre", GoAny.str "gatito")]) "session" = none :=
  context_three_keys none none (some [("nombre", GoAny.str "gatito")])
    [("nombre", GoAny.str "gatito")] (by decide) (by decide)

/-- **C8 counterexample.** `contains` does not coerce non-string arguments:
`safeContains 42 "4"` is `false`, while the claimed best-effort string
coercion (`fmt.Sprint`, as `upper` uses) would test `"4" ⊆ "42"` and give
`true`. -/
theorem contains_no_coercion_cex :
    safeContains (GoAny.int 42) (GoAny.str "4") ≠
      goContains (fmtSprint (GoAny.int 42)) (fmtSprint (GoAny.str "4")) := by decide

/-- **C8 (amended).** Every safe helper is total on a type mismatch,
returning a descriptive error string or a zero value: `contains` and
`regexMatch` return `false` (they do not coerce), `upper` alone coerces via
`fmt.Sprint`, `lower`/`title`/`trim`/`join`/`replace` return their error
strings, `split` returns the empty slice, `len` returns `0` on
non-collections, and `default` always yields the value or the default. -/
theorem safe_helpers_mismatch (matchString : String → String → Bool)
    (a b c v dflt : GoAny) (sep : String) :
    (a.isString = false ∨ b.isString = false → safeContains a b = false) ∧
    (a.isString = false ∨ b.isString = false → safeRegexMatch matchString a b = false) ∧
    safeUpper v = goToUpper (fmtSprint v) ∧
    (v.isString = false → safeLower v = "error: not a string") ∧
    (v.isString = false → safeTitle v = "error: not a string") ∧
    (v.isString = false → safeTrim v = "error: not a string") ∧
    (a.isString = false ∨ b.isString = false → safeSplit a b = []) ∧
    (v.isStrList = false → safeJoin v sep = "error: expected []string") ∧
    (a.isString = false ∨ b.isString = false ∨ c.isString = false →
      safeReplace a b c = "error: invalid args") ∧
    (v.isString = false ∧ v.isStrList = false → safeLen v = 0) ∧
    (safeDefault v dflt = v ∨ safeDefault v dflt = dflt) := by
  refine ⟨?_, ?_, rfl, ?_, ?_, ?_, ?_, ?_, ?_, ?_, ?_⟩
  · rintro (h | h) <;> cases a <;> cases b <;>
      simp_all [safeContains, GoAny.isString]
  · rintro (h | h) <;> cases a <;> cases b <;>
      simp_all [safeRegexMatch, GoAny.isString]
  · intro h; cases v <;> simp_all [safeLower, GoAny.isString]
  · intro h; cases v <;> simp_all [safeTitle, GoAny.isString]
  · intro h; cases v <;> simp_all [safeTrim, GoAny.isString]
  · rintro (h | h) <;> cases a <;> cases b <;>
      simp_all [safeSplit, GoAny.isString]
  · intro h; cases v <;> simp_all [safeJoin, GoAny.isStrList]
  · rintro (h | h | h) <;> cases a <;> cases b <;> cases c <;>
      simp_all [safeReplace, GoAny.isString]
  · rintro ⟨h1, h2⟩
    cases v <;> simp_all [safeLen, GoAny.isString, GoAny.isStrList]
  · cases v with
    | str s => by_cases h : s = "" <;> simp [safeDefault, h]
    | int n => by_cases h : n = 0 <;> simp [safeDefault, h]
    | bool b => cases b <;> simp [safeDefault]
    | strList l => simp [safeDefault]
    | nil => simp [safeDefault]

/-- Witness for `safe_helpers_mismatch` at concrete mismatched inputs. -/
theorem safe_helpers_mismatch_witness :
    safeContains (GoAny.int 7) GoAny.nil = false ∧
    safeRegexMatch (fun _ _ => true) (GoAny.int 7) GoAny.nil = false ∧
    safeUpper (GoAny.int 7) = goToUpper (fmtSprint (GoAny.int 7)) ∧
    safeLower (GoAny.int 7) = "error: not a string" ∧
    safeTitle (GoAny.int 7) = "error: not a string" ∧
    safeTrim (GoAny.int 7) = "error: not a string" ∧
    safeSplit (GoAny.int 7) GoAny.nil = [] ∧
    safeJoin (GoAny.int 7) "," = "error: expected []string" ∧
    safeReplace (GoAny.int 7) GoAny.nil (GoAny.bool false) = "error: invalid args" ∧
    safeLen (GoAny.int 7) = 0 ∧
    (safeDefault (GoAny.int 7) (GoAny.str "d") = GoAny.int 7 ∨
      safeDefault (GoAny.int 7) (GoAny.str "d") = GoAny.str "d") := by
  obtain ⟨h1, h2, h3, h4, h5, h6, h7, h8, h9, h10, h11⟩ :=
    safe_helpers_mismatch (fun _ _ => true) (GoAny.int 7) GoAny.nil (GoAny.bool false)
      (GoAny.int 7) (GoAny.str "d") ","
  exact ⟨h1 (Or.inl rfl), h2 (Or.inl rfl), h3, h4 rfl, h5 rfl, h6 rfl,
    h7 (Or.inl rfl), h8 rfl, h9 (Or.inl rfl), h10 ⟨rfl, rfl⟩, h11⟩

/-- **C9 counterexample.** Sending `"ping test"` in scenario 2 does not put
exactly `"PING TEST"` on the wire: tcp.go appends a trailing newline to any
rendered response that does not end in one before `conn.Write`. -/
theorem scenario2_wire_cex :
    scenario2Outcome "ping test" ≠ MsgOutcome.wrote "PING TEST" := by
  intro h
  have heq : scenario2Outcome "ping test" = MsgOutcome.wrote "PING TEST\n" := rfl
  rw [heq] at h
  simp only [MsgOutcome.wrote.injEq] at h
  simp at h

/-- **C9 (amended).** In scenario 2 (`match` `(?P<cmd>.+)`, guard testing
`contains .input.cmd "ping"`, respond invoking the imported `toUpper`
fragment), sending `"ping test"` writes `"PING TEST\n"` on the wire — the
upper-cased capture with the newline framing tcp.go appends. -/
theorem scenario2_wire :
    scenario2Outcome "ping test" = MsgOutcome.wrote "PING TEST\n" := rfl

/-- A file write leaves the content stored at every other path unchanged. -/
theorem fsWrite_lookup_ne (fs : FileTree) (k k' : List String) (v : String) (h : k' ≠ k) :
    assocLookup (fsWrite fs k v) k' = assocLookup fs k' := by
  induction fs with
  | nil =>
    have h2 : ¬ k = k' := fun e => h e.symm
    simp [fsWrite, assocLookup, h2]
  | cons p t ih =>
    obtain ⟨k2, v2⟩ := p
    by_cases hk : k2 = k
    · subst hk
      have h2 : ¬ k2 = k' := fun e => h e.symm
      simp [fsWrite, assocLookup, h2]
    · simp [fsWrite, assocLookup, hk, ih]

/-- Materializing a file list does not disturb paths it does not write. -/
theorem materialize_lookup_old (files : List FileEntry) (p : List String) :
    ∀ fs : FileTree, p ∉ files.map (fun f => filepathJoin "sftp_root" f.path) →
      assocLookup
        (List.foldl (fun acc f => fsWrite acc (filepathJoin "sftp_root" f.path) f.content)
          fs files) p =
        assocLookup fs p := by
  induction files with
  | nil => intro fs _; rfl
  | cons f t ih =>
    intro fs h
    have hp : p ≠ filepathJoin "sftp_root" f.path := by
      intro e; exact h (by simp [e])
    have ht : p ∉ t.map (fun f => filepathJoin "sftp_root" f.path) := fun m => h (by simp [m])
    simp only [List.foldl_cons]
    rw [ih _ ht, fsWrite_lookup_ne _ _ _ _ hp]

/-- `Clean`'s segment fold is plain filtering when no `..` segment occurs. -/
theorem foldl_cleanSegsStep :
    ∀ segs stack : List String, ".." ∉ segs →
      List.foldl cleanSegsStep stack segs =
        stack ++ segs.filter (fun s => !(s = "" || s = ".")) := by
  intro segs
  induction segs with
  | nil => intro stack _; simp
  | cons s t ih =>
    intro stack h
    have hs : ¬ s = ".." := fun e => h (by simp [e])
    have ht : ".." ∉ t := fun m => h (by simp [m])
    rw [List.foldl_cons]
    by_cases h0 : s = "" ∨ s = "."
    · have hstep : cleanSegsStep stack s = stack := by
        simp [cleanSegsStep, h0]
      rw [hstep, ih stack ht, List.filter_cons]
      rcases h0 with h0 | h0 <;> simp [h0]
    · push_neg at h0
      have hstep : cleanSegsStep stack s = stack ++ [s] := by
        simp [cleanSegsStep, h0.1, h0.2, hs]
      rw [hstep, ih (stack ++ [s]) ht, List.filter_cons]
      simp [h0.1, h0.2]

/-- Joining a `..`-free entry path onto the root lands under `sftp_root`. -/
theorem filepathJoin_sftp_root (p : String) (h : ".." ∉ splitSlash p) :
    filepathJoin "sftp_root" p = "sftp_root" :: relSegs p := by
  unfold filepathJoin relSegs cleanSegs
  have hsplit : splitSlash "sftp_root" = ["sftp_root"] := rfl
  rw [hsplit, List.singleton_append, List.foldl_cons]
  have hstep : cleanSegsStep [] "sftp_root" = ["sftp_root"] := rfl
  rw [hstep, foldl_cleanSegsStep _ _ h]
  rfl

/-- **C10.** Every SFTP `Start` materializes its `FileEntry` set under the
one fixed relative directory `sftp_root` regardless of the definition (so
all SFTP mocks in a process share one backing tree), materialization leaves
every path it does not write — including leftovers of earlier runs — intact,
and `Stop` only closes the listener, never touching the tree. -/
theorem sftp_shared_root_and_stop (d : MockDefinition) (fs : FileTree) (p : List String)
    (st : SftpState) (f : FileEntry)
    (hp : p ∉ d.files.map (fun g => filepathJoin (sftpRoot d) g.path))
    (hf : ".." ∉ splitSlash f.path) :
    sftpRoot d = "sftp_root" ∧
    assocLookup (sftpMaterialize d fs) p = assocLookup fs p ∧
    filepathJoin (sftpRoot d) f.path = "sftp_root" :: relSegs f.path ∧
    sftpStop st = { listening := false, fs := st.fs } := by
  refine ⟨rfl, ?_, ?_, rfl⟩
  · unfold sftpMaterialize
    simp only [sftpRoot] at hp ⊢
    exact materialize_lookup_old d.files p fs hp
  · simp only [sftpRoot]
    exact filepathJoin_sftp_root f.path hf

/-- Witness for `sftp_shared_root_and_stop` on scenario 4's definition, a
stale pre-existing file and the `/welcome.txt` entry. -/
theorem sftp_shared_root_and_stop_witness :
    sftpRoot sftpScenarioDef = "sftp_root" ∧
    assocLookup (sftpMaterialize sftpScenarioDef [(["stale.txt"], "old")]) ["stale.txt"] =
      assocLookup [(["stale.txt"], "old")] ["stale.txt"] ∧
    filepathJoin (sftpRoot sftpScenarioDef) "/welcome.txt" =
      "sftp_root" :: relSegs "/welcome.txt" ∧
    sftpStop { listening := true, fs := [(["stale.txt"], "old")] } =
      { listening := false, fs := [(["stale.txt"], "old")] } :=
  sftp_shared_root_and_stop sftpScenarioDef [(["stale.txt"], "old")] ["stale.txt"]
    { listening := true, fs := [(["stale.txt"], "old")] }
    { path := "/welcome.txt", content := "hi" } (by decide) (by decide)

end Kuro
